import Mathlib

/-!
Verification of the identification-pipeline core of the animal app
(`src/app.py`): the localization catalog and its fallback resolver `tr`,
the image codec `image_to_data_url`, and the identification client
`identify_pet_with_qwen`, shallowly embedded in Lean 4.
-/

set_option maxRecDepth 8000

namespace AnimalApp

/-- Python `dict.get(key, default)` over an association list, first binding
wins (the literal dicts in the source have distinct keys). -/
def dictGet {α : Type} : List (String × α) → String → Option α
  | [], _ => none
  | (k, v) :: rest, key => if k = key then some v else dictGet rest key

/-- Python `dict.get(key, default)` with an explicit default. -/
def dictGetD {α : Type} (d : List (String × α)) (key : String) (dflt : α) : α :=
  (dictGet d key).getD dflt

/-- The supported locales, the values of the `LANGS` dict (src/app.py lines 29-33). -/
def LANGS : List (String × String) :=
  [("English", "en"), ("中文", "zh"), ("한국어", "ko")]

/-- The supported locale codes. -/
def supportedLocales : List String := ["en", "zh", "ko"]

/-- The message catalog `T` (src/app.py lines 35-73), verbatim. -/
def T : List (String × List (String × String)) :=
  [ ("app_title",
      [("en", "Animal ID & Encyclopedia"),
       ("zh", "动物识别与百科"),
       ("ko", "동물 인식 & 백과")]),
    ("nav_home", [("en", "Home"), ("zh", "首页"), ("ko", "홈")]),
    ("nav_pet", [("en", "Pet Identifier"), ("zh", "宠物识别"), ("ko", "반려동물 인식")]),
    ("nav_ency", [("en", "Animal Encyclopedia"), ("zh", "动物百科"), ("ko", "동물 백과")]),
    ("nav_about", [("en", "About"), ("zh", "关于"), ("ko", "소개")]),
    ("home_intro",
      [("en", "Upload a photo to identify pets and explore animals by category."),
       ("zh", "上传照片识别宠物，按分类探索动物百科。"),
       ("ko", "사진을 업로드해 반려동물을 인식하고 분류별 동물을 탐색하세요.")]),
    ("pet_upload", [("en", "Upload a pet photo"), ("zh", "上传宠物照片"), ("ko", "반려동물 사진 업로드")]),
    ("pet_result", [("en", "Identification Result"), ("zh", "识别结果"), ("ko", "인식 결과")]),
    ("pet_tip",
      [("en", "Tip: Clear face/body photos work best."),
       ("zh", "提示：宠物正脸或全身清晰照片效果最好。"),
       ("ko", "팁: 얼굴/전신이 선명한 사진이 가장 좋아요.")]),
    ("no_key_demo",
      [("en", "No API key found. Running in demo mode (no real AI call)."),
       ("zh", "未检测到 API Key，已进入演示模式（不会真实调用AI）。"),
       ("ko", "API 키가 없습니다. 데모 모드로 실행됩니다.")]),
    ("ency_pick_cat", [("en", "Choose a category"), ("zh", "选择分类"), ("ko", "분류 선택")]),
    ("ency_animals", [("en", "Animals"), ("zh", "动物列表"), ("ko", "동물 목록")]),
    ("detail", [("en", "Details"), ("zh", "详情"), ("ko", "상세")]),
    ("habitat", [("en", "Habitat"), ("zh", "栖息地"), ("ko", "서식지")]),
    ("facts", [("en", "Fun facts"), ("zh", "趣味事实"), ("ko", "재미있는 사실")]),
    ("about_text",
      [("en", "A lightweight Streamlit app for pet identification and animal knowledge."),
       ("zh", "一个轻量级的 Streamlit 宠物识别与动物科普网站。"),
       ("ko", "반려동물 인식과 동물 지식을 위한 가벼운 Streamlit 앱입니다.")]) ]

/-- The keys of the catalog `T`. -/
def tKeys : List String := T.map (fun p => p.1)

/-- The resolver `tr` (src/app.py lines 75-76), verbatim:
`T.get(key, {}).get(lang, T.get(key, {}).get("en", key))`. -/
def tr (key lang : String) : String :=
  dictGetD (dictGetD T key []) lang (dictGetD (dictGetD T key []) "en" key)

/-- The triple-tier fallback as the spec section 4.1 words it: the
locale-specific entry when present, otherwise the `en` entry when present,
otherwise the literal key itself. -/
def resolveSpec (key lang : String) : String :=
  match dictGet T key with
  | none => key
  | some entry =>
    match dictGet entry lang with
    | some v => v
    | none =>
      match dictGet entry "en" with
      | some v => v
      | none => key

/-- The English identification prompt (src/app.py lines 139-147), verbatim. -/
def prompt_en : String :=
  "You are a pet expert. Identify the pet in the photo.\nReturn:\n1) Species/Breed (if confident)\n2) Key visual cues\n3) Likely age stage (baby/adult/senior)\n4) Care tips (3-5 bullets)\n5) Safety note if uncertain\n\nIf not a pet, say what the main subject is."

/-- The Chinese identification prompt (src/app.py lines 148-156), verbatim. -/
def prompt_zh : String :=
  "你是宠物专家。请识别照片中的宠物。\n按以下结构输出：\n1）物种/品种（有把握再写）\n2）关键视觉依据\n3）可能年龄阶段（幼年/成年/老年）\n4）饲养与护理建议（3-5条）\n5）不确定性与安全提示\n\n如果不是宠物，请说明主要内容。"

/-- The Korean identification prompt (src/app.py lines 157-165), verbatim. -/
def prompt_ko : String :=
  "당신은 반려동물 전문가입니다. 사진 속 반려동물을 식별하세요.\n다음 구조로 답변:\n1) 종/품종(확신할 때만)\n2) 핵심 시각적 근거\n3) 추정 연령 단계(유/성/노)\n4) 사육·관리 팁(3-5개)\n5) 불확실성 및 안전 안내\n\n반려동물이 아니면 주요 피사체를 설명하세요."

/-- The prompt dict literal built inside identify_pet_with_qwen
(src/app.py lines 138-166). The source indexes it as `{...}[lang]`, with no
fallback: a missing key is a KeyError. -/
def promptDict : List (String × String) :=
  [("en", prompt_en), ("zh", prompt_zh), ("ko", prompt_ko)]

/-- An in-memory decoded image as handed to the pipeline: pixel dimensions
plus the raw RGBA byte stream (the app converts uploads to RGBA,
src/app.py line 215). -/
structure PILImage where
  width : Nat
  height : Nat
  pixels : List Nat
  deriving Repr, DecidableEq

/-- A Python exception raised by the remote call, as caught by the bare
`except Exception` in identify_pet_with_qwen (src/app.py line 182): any
transport, authentication, quota, remote-side or timeout fault, carrying
the text `str(e)` would produce. -/
inductive PyExn where
  | transportError (msg : String)
  | authError (msg : String)
  | quotaError (msg : String)
  | remoteSideError (msg : String)
  | timeoutError (msg : String)
  deriving Repr, DecidableEq

/-- The string rendering `str(e)` of an exception, interpolated by
`f"Error: {e}"` at src/app.py line 183. -/
def PyExn.str : PyExn → String
  | .transportError m => m
  | .authError m => m
  | .quotaError m => m
  | .remoteSideError m => m
  | .timeoutError m => m

/-- A KeyError escaping identify_pet_with_qwen (the prompt-dict index at
src/app.py line 166 is outside the try block). -/
inductive PyError where
  | keyError (key : String)
  deriving Repr, DecidableEq

/-- Observable network-side effects of one identify_pet_with_qwen call:
construction of the OpenAI client (src/app.py lines 129-132) and dispatch
of the single chat-completions request (lines 169-180). -/
inductive NetEvent where
  | clientConstructed (apiKey baseUrl : String)
  | requestSent (model imageUrl promptText : String)
  deriving Repr, DecidableEq

/-- Number of remote requests dispatched in a trace of network events. -/
def countRequests : List NetEvent → Nat
  | [] => 0
  | .requestSent _ _ _ :: rest => countRequests rest + 1
  | .clientConstructed _ _ :: rest => countRequests rest

/-- The base64 alphabet, in value order, as used by Python
`base64.b64encode`. -/
def b64Alphabet : List Char :=
  ['A', 'B', 'C', 'D', 'E', 'F', 'G', 'H', 'I', 'J', 'K', 'L', 'M',
   'N', 'O', 'P', 'Q', 'R', 'S', 'T', 'U', 'V', 'W', 'X', 'Y', 'Z',
   'a', 'b', 'c', 'd', 'e', 'f', 'g', 'h', 'i', 'j', 'k', 'l', 'm',
   'n', 'o', 'p', 'q', 'r', 's', 't', 'u', 'v', 'w', 'x', 'y', 'z',
   '0', '1', '2', '3', '4', '5', '6', '7', '8', '9', '+', '/']

/-- The character standing for a six-bit value. -/
def sextetChar (n : Nat) : Char := b64Alphabet.getD n '?'

/-- The six-bit value of an alphabet character (none for a character
outside the alphabet, such as the padding sign). -/
def charSextet : Char → Option Nat :=
  go b64Alphabet
where
  go : List Char → Char → Option Nat
    | [], _ => none
    | a :: as, c => if a = c then some 0 else (go as c).map (· + 1)

/-- Standard base64 of a byte list, as `base64.b64encode` produces it
(RFC 4648, with padding), at the level of characters. -/
def b64EncodeBytes : List Nat → List Char
  | [] => []
  | [b1] => [sextetChar (b1 / 4), sextetChar (b1 % 4 * 16), '=', '=']
  | [b1, b2] =>
      [sextetChar (b1 / 4), sextetChar (b1 % 4 * 16 + b2 / 16), sextetChar (b2 % 16 * 4), '=']
  | b1 :: b2 :: b3 :: rest =>
      sextetChar (b1 / 4) :: sextetChar (b1 % 4 * 16 + b2 / 16) ::
      sextetChar (b2 % 16 * 4 + b3 / 64) :: sextetChar (b3 % 64) :: b64EncodeBytes rest

/-- Standard base64 decoding back to bytes; `none` on any malformed
input (wrong length, stray characters, misplaced padding). -/
def b64DecodeChars : List Char → Option (List Nat)
  | [] => some []
  | c1 :: c2 :: c3 :: c4 :: rest =>
    match charSextet c1, charSextet c2 with
    | some s1, some s2 =>
      if c3 = '=' then
        if c4 = '=' ∧ rest = [] ∧ s2 % 16 = 0 then some [s1 * 4 + s2 / 16] else none
      else
        match charSextet c3 with
        | none => none
        | some s3 =>
          if c4 = '=' then
            if rest = [] ∧ s3 % 4 = 0 then
              some [s1 * 4 + s2 / 16, s2 % 16 * 16 + s3 / 4]
            else none
          else
            match charSextet c4 with
            | none => none
            | some s4 =>
              (b64DecodeChars rest).map
                (fun t => (s1 * 4 + s2 / 16) :: (s2 % 16 * 16 + s3 / 4) :: (s3 % 4 * 64 + s4) :: t)
    | _, _ => none
  | _ => none

/-- Big-endian four-byte encoding of a 32-bit value. -/
def be32 (n : Nat) : List Nat :=
  [n / 2 ^ 24 % 256, n / 2 ^ 16 % 256, n / 2 ^ 8 % 256, n % 256]

/-- The value of four big-endian bytes. -/
def parseBe32 (bs : List Nat) : Nat :=
  match bs with
  | [b0, b1, b2, b3] => b0 * 2 ^ 24 + b1 * 2 ^ 16 + b2 * 2 ^ 8 + b3
  | _ => 0

/-- The eight-byte PNG signature. -/
def pngSignature : List Nat := [137, 80, 78, 71, 13, 10, 26, 10]

/-- Modelled from the spec: the PNG serialization performed by PIL's
`img.save(buffered, format="PNG")` at src/app.py line 114 (the codec
itself lives in the external imaging library, not in the repository).
The spec requires a lossless re-encode preserving exact pixel dimensions;
in the PNG format the dimensions sit in the IHDR chunk as big-endian
32-bit words at byte offsets 16 and 20. Chunk checksums and the
compression of the pixel stream do not affect the stored dimensions and
are modelled as zero words and the identity respectively. The stream is
signature, IHDR chunk (length 13, tag, width, height, bit depth 8, color
type 6 = RGBA, compression, filter, interlace, checksum), one IDAT chunk
carrying the pixel stream, and the IEND chunk. -/
def pngBytes (img : PILImage) : List Nat :=
  pngSignature ++ ([0, 0, 0, 13] ++ ([73, 72, 68, 82] ++
    (be32 img.width ++ (be32 img.height ++ ([8, 6, 0, 0, 0] ++ ([0, 0, 0, 0] ++
    (be32 img.pixels.length ++ ([73, 68, 65, 84] ++ (img.pixels ++ ([0, 0, 0, 0] ++
    ([0, 0, 0, 0] ++ ([73, 69, 78, 68] ++ [0, 0, 0, 0]))))))))))))

/-- Modelled from the spec: reading a PNG byte stream back into an image
(`decode` in the spec's round-trip property; the real decoder lives in
the external imaging library). Checks the signature and the IHDR chunk
layout, reads the two big-endian dimension words at their fixed offsets
16 and 20, and recovers the pixel stream from the IDAT chunk. -/
def pngDecode (bs : List Nat) : Option PILImage :=
  let sig := bs.take 8
  let r1 := bs.drop 8
  let ihdrLen := r1.take 4
  let r2 := r1.drop 4
  let ihdrTag := r2.take 4
  let r3 := r2.drop 4
  let wB := r3.take 4
  let r4 := r3.drop 4
  let hB := r4.take 4
  let r5 := r4.drop 4
  let r6 := r5.drop 5
  let r7 := r6.drop 4
  let idatLenB := r7.take 4
  let r8 := r7.drop 4
  let idatTag := r8.take 4
  let r9 := r8.drop 4
  if sig = pngSignature ∧ ihdrLen = [0, 0, 0, 13] ∧ ihdrTag = [73, 72, 68, 82] ∧
      idatTag = [73, 68, 65, 84] then
    some ⟨parseBe32 wB, parseBe32 hB, r9.take (parseBe32 idatLenB)⟩
  else none

/-- The data-URL prefix written by the f-string at src/app.py line 116. -/
def dataUrlHead : String := "data:image/png;base64,"

/-- The codec image_to_data_url (src/app.py lines 111-116): re-serialize
the image as PNG, base64-encode the bytes, and wrap them as
`data:image/png;base64,` followed by the payload. -/
def image_to_data_url (img : PILImage) : String :=
  dataUrlHead ++ String.mk (b64EncodeBytes (pngBytes img))

/-- Decoding a data URL back to an image: strip and verify the
`data:image/png;base64,` head, base64-decode the payload, and parse the
PNG stream. -/
def dataUrlDecode (s : String) : Option PILImage :=
  if s.data.take 22 = dataUrlHead.data then
    (b64DecodeChars (s.data.drop 22)).bind pngDecode
  else none

/-- The outcome sum type of the spec's section 3 (IdentificationOutcome). -/
inductive IdentificationOutcome where
  | Success (text : String)
  | NoCredential
  | RemoteFailure (message : String)
  deriving Repr, DecidableEq

/-- View of identify_pet_with_qwen's returned pair `(result, err_flag)` as
the spec's outcome variants: `(None, "NO_KEY")` is NoCredential,
`(text, None)` is Success, `(message, "ERROR")` is RemoteFailure. -/
def outcomeOf : Option String × Option String → Option IdentificationOutcome
  | (none, some f) => if f = "NO_KEY" then some .NoCredential else none
  | (some t, none) => some (.Success t)
  | (some m, some f) => if f = "ERROR" then some (.RemoteFailure m) else none
  | (none, none) => none

/-- The identification client identify_pet_with_qwen (src/app.py lines
121-183). The module-level configuration (lines 22-24) enters as
`apiKey`, `baseUrl`, `vlModel`; the remote chat-completion call is the
stub transport `remote`, a function of the request fields that either
returns the completion content (the value of
`completion.choices[0].message.content`) or raises. The result pairs the
Python return value `(result, err_flag)` — or the escaping KeyError —
with the trace of network events. -/
def identify_pet_with_qwen (apiKey baseUrl vlModel : String)
    (remote : String → String → String → Except PyExn String)
    (image : PILImage) (lang : String) :
    Except PyError (Option String × Option String) × List NetEvent :=
  if apiKey = "" then
    (.ok (none, some "NO_KEY"), [])
  else
    let constructed : List NetEvent := [.clientConstructed apiKey baseUrl]
    let dataUrl := image_to_data_url image
    match dictGet promptDict lang with
    | none => (.error (.keyError lang), constructed)
    | some prompt =>
      let trace := constructed ++ [.requestSent vlModel dataUrl prompt]
      match remote vlModel dataUrl prompt with
      | .ok content => (.ok (some content, none), trace)
      | .error e => (.ok (some ("Error: " ++ e.str), some "ERROR"), trace)

/-- Reading of module configuration from the environment
(src/app.py line 22): `os.getenv("DASHSCOPE_API_KEY", "")`. -/
def DASHSCOPE_API_KEY_of (env : String → Option String) : String :=
  (env "DASHSCOPE_API_KEY").getD ""

/-- Keyword arguments passed to the OpenAI client constructor
(src/app.py lines 129-132). -/
def openAIClientArgs : List String := ["api_key", "base_url"]

/-- Keyword arguments passed to `client.chat.completions.create`
(src/app.py lines 169-180). -/
def chatCompletionsCreateArgs : List String := ["model", "messages"]

/-- The parameters of identify_pet_with_qwen (src/app.py line 121). -/
def identifyParams : List String := ["image", "lang"]

/-- The environment variables the module reads (src/app.py lines 22-24). -/
def envVarsRead : List String :=
  ["DASHSCOPE_API_KEY", "DASHSCOPE_BASE_URL", "QWEN_VL_MODEL"]

/-- Prefix test on character lists. -/
def leadsWith : List Char → List Char → Bool
  | [], _ => true
  | _ :: _, [] => false
  | p :: ps, c :: cs => p = c && leadsWith ps cs

/-- The suffix following the first occurrence of a pattern, when the
pattern occurs at all. -/
def afterMatch (pat : List Char) : List Char → Option (List Char)
  | [] => if pat = [] then some [] else none
  | c :: cs =>
    if leadsWith pat (c :: cs) then some (List.drop pat.length (c :: cs))
    else afterMatch pat cs

/-- Every pattern occurs, each strictly inside the suffix after the
previous one. -/
def containsInOrder (s : List Char) : List (List Char) → Bool
  | [] => true
  | p :: ps =>
    match afterMatch p s with
    | some s2 => containsInOrder s2 ps
    | none => false

/-- The five required sections of the English prompt, in the order the
claim demands, followed by the not-the-expected-organism instruction.
Section 3 carries the closed life-stage set (rendered baby/adult/senior
in this locale). -/
def promptSections_en : List String :=
  ["1) Species/Breed", "2) Key visual cues", "3) Likely age stage (baby/adult/senior)",
   "4) Care tips (3-5 bullets)", "5) Safety note if uncertain",
   "If not a pet, say what the main subject is."]

/-- The five required sections of the Chinese prompt plus the
not-the-expected-organism instruction; section 3 carries the closed
life-stage set rendered 幼年/成年/老年. -/
def promptSections_zh : List String :=
  ["1）物种/品种", "2）关键视觉依据", "3）可能年龄阶段（幼年/成年/老年）",
   "4）饲养与护理建议（3-5条）", "5）不确定性与安全提示", "如果不是宠物，请说明主要内容。"]

/-- The five required sections of the Korean prompt plus the
not-the-expected-organism instruction; section 3 carries the closed
life-stage set rendered 유/성/노. -/
def promptSections_ko : List String :=
  ["1) 종/품종", "2) 핵심 시각적 근거", "3) 추정 연령 단계(유/성/노)",
   "4) 사육·관리 팁(3-5개)", "5) 불확실성 및 안전 안내", "반려동물이 아니면 주요 피사체를 설명하세요."]

/-! ## Theorems -/

theorem tr_eq_resolveSpec (key lang : String) : tr key lang = resolveSpec key lang := by
  unfold tr resolveSpec dictGetD
  cases h : dictGet T key with
  | none => simp [h, dictGet]
  | some entry =>
    simp only [h, Option.getD_some]
    cases h2 : dictGet entry lang with
    | none =>
      cases h3 : dictGet entry "en" with
      | none => simp [h2, h3]
      | some v => simp [h2, h3]
    | some v => simp [h2]

theorem errorPrefixed_ne_empty (s : String) : "Error: " ++ s ≠ "" := by
  intro h
  have h2 := congrArg String.data h
  rw [String.data_append] at h2
  have h3 : ("Error: ").data = 'E' :: 'r' :: 'r' :: 'o' :: 'r' :: ':' :: ' ' :: [] := rfl
  have h4 : ("" : String).data = [] := rfl
  rw [h3, h4] at h2
  simp at h2

/-- C4: the resolver `tr` implements exactly the triple-tier fallback —
locale entry, else `en` entry, else the literal key — and in particular
returns the key itself whenever the key is absent from the catalog; being
a total function, it never fails or throws. -/
theorem C4_tr_triple_tier :
    (∀ key lang, tr key lang = resolveSpec key lang) ∧
    (∀ key lang, dictGet T key = none → tr key lang = key) := by
  refine ⟨tr_eq_resolveSpec, fun key lang h => ?_⟩
  rw [tr_eq_resolveSpec, resolveSpec, h]

theorem C4_witness :
    dictGet T "not_in_catalog" = none ∧ tr "not_in_catalog" "zh" = "not_in_catalog" :=
  ⟨by decide, C4_tr_triple_tier.2 "not_in_catalog" "zh" (by decide)⟩

/-- C7: for every supported locale and every key present in the catalog,
`tr` returns a non-empty string; and as a pure function of its arguments,
two calls with the same arguments return the same string. -/
theorem C7_catalog_total_nonempty :
    ∀ key ∈ tKeys, ∀ lang ∈ supportedLocales,
      tr key lang ≠ "" ∧ tr key lang = tr key lang := by
  decide

theorem C7_witness :
    ("no_key_demo" ∈ tKeys ∧ "ko" ∈ supportedLocales) ∧
      (tr "no_key_demo" "ko" ≠ "" ∧ tr "no_key_demo" "ko" = tr "no_key_demo" "ko") :=
  ⟨⟨by decide, by decide⟩,
   C7_catalog_total_nonempty "no_key_demo" (by decide) "ko" (by decide)⟩

/-- C1: with no credential configured (the falsy empty key), identify
returns the NoCredential outcome `(None, "NO_KEY")` immediately: the
network-event trace is empty, so no client is constructed and no request
is dispatched, for every image, locale, base URL, model and transport. -/
theorem C1_no_credential_no_network
    (baseUrl vlModel : String) (remote : String → String → String → Except PyExn String)
    (image : PILImage) (lang : String) :
    identify_pet_with_qwen "" baseUrl vlModel remote image lang
      = (.ok (none, some "NO_KEY"), []) ∧
    countRequests (identify_pet_with_qwen "" baseUrl vlModel remote image lang).2 = 0 ∧
    outcomeOf (none, some "NO_KEY") = some .NoCredential := by
  refine ⟨?_, ?_, rfl⟩ <;> simp [identify_pet_with_qwen, countRequests]

/-- C9: when the DASHSCOPE_API_KEY environment variable is unset, the
configured credential defaults to the empty string, and identify treats
it exactly like an absent credential: it returns NoCredential with an
empty network trace (no client, no request), so an empty credential can
never produce a RemoteFailure. -/
theorem C9_empty_credential_like_absent
    (env : String → Option String) (baseUrl vlModel : String)
    (remote : String → String → String → Except PyExn String)
    (image : PILImage) (lang : String)
    (h : env "DASHSCOPE_API_KEY" = none) :
    DASHSCOPE_API_KEY_of env = "" ∧
    identify_pet_with_qwen (DASHSCOPE_API_KEY_of env) baseUrl vlModel remote image lang
      = (.ok (none, some "NO_KEY"), []) ∧
    ∀ msg, outcomeOf (none, some "NO_KEY") ≠ some (.RemoteFailure msg) := by
  have hk : DASHSCOPE_API_KEY_of env = "" := by simp [DASHSCOPE_API_KEY_of, h]
  refine ⟨hk, ?_, fun msg => by simp [outcomeOf]⟩
  rw [hk]
  simp [identify_pet_with_qwen]

theorem C9_witness :
    ((fun _ : String => (none : Option String)) "DASHSCOPE_API_KEY" = none) ∧
      (DASHSCOPE_API_KEY_of (fun _ => none) = "" ∧
       identify_pet_with_qwen (DASHSCOPE_API_KEY_of (fun _ => none)) "https://example" "qwen-vl-plus"
           (fun _ _ _ => .ok "text") ⟨1, 1, []⟩ "ko"
         = (.ok (none, some "NO_KEY"), []) ∧
       ∀ msg, outcomeOf (none, some "NO_KEY") ≠ some (.RemoteFailure msg)) :=
  ⟨rfl, C9_empty_credential_like_absent (fun _ => none) "https://example" "qwen-vl-plus"
    (fun _ _ _ => .ok "text") ⟨1, 1, []⟩ "ko" rfl⟩

/-- C2: with a credential configured and a supported locale, when the
remote call returns a completion, identify returns the model's textual
response wrapped as the Success outcome, byte-for-byte unmodified, after
constructing one client and dispatching exactly one request. -/
theorem C2_success_passthrough
    (apiKey baseUrl vlModel : String)
    (remote : String → String → String → Except PyExn String)
    (image : PILImage) (lang prompt content : String)
    (hkey : apiKey ≠ "")
    (hlang : dictGet promptDict lang = some prompt)
    (hremote : remote vlModel (image_to_data_url image) prompt = .ok content) :
    identify_pet_with_qwen apiKey baseUrl vlModel remote image lang
      = (.ok (some content, none),
         [.clientConstructed apiKey baseUrl,
          .requestSent vlModel (image_to_data_url image) prompt]) ∧
    outcomeOf (some content, none) = some (.Success content) := by
  refine ⟨?_, rfl⟩
  simp [identify_pet_with_qwen, hkey, hlang, hremote]

theorem C2_witness :
    ("sk-test" ≠ "" ∧ dictGet promptDict "en" = some prompt_en ∧
      (fun _ _ _ => (Except.ok "A tabby cat." : Except PyExn String)) "qwen-vl-plus"
          (image_to_data_url ⟨1, 1, [0, 0, 0, 255]⟩) prompt_en = .ok "A tabby cat.") ∧
    (identify_pet_with_qwen "sk-test" "https://example" "qwen-vl-plus"
        (fun _ _ _ => .ok "A tabby cat.") ⟨1, 1, [0, 0, 0, 255]⟩ "en"
      = (.ok (some "A tabby cat.", none),
         [.clientConstructed "sk-test" "https://example",
          .requestSent "qwen-vl-plus" (image_to_data_url ⟨1, 1, [0, 0, 0, 255]⟩) prompt_en]) ∧
     outcomeOf (some "A tabby cat.", none) = some (.Success "A tabby cat.")) :=
  ⟨⟨by decide, by decide, rfl⟩,
   C2_success_passthrough "sk-test" "https://example" "qwen-vl-plus"
     (fun _ _ _ => .ok "A tabby cat.") ⟨1, 1, [0, 0, 0, 255]⟩ "en" prompt_en "A tabby cat."
     (by decide) (by decide) rfl⟩

/-- C3: with a credential configured and a supported locale, when the
remote call raises any exception — transport, authentication, quota,
remote-side or timeout — identify catches it and returns the
RemoteFailure outcome carrying the non-empty diagnostic
`"Error: " ++ str(e)`; the fault never propagates (the returned value is
an ordinary `ok` pair, never an escaping error), and the trace holds at
most one dispatched request. -/
theorem C3_remote_error_contained
    (apiKey baseUrl vlModel : String)
    (remote : String → String → String → Except PyExn String)
    (image : PILImage) (lang prompt : String) (e : PyExn)
    (hkey : apiKey ≠ "")
    (hlang : dictGet promptDict lang = some prompt)
    (hremote : remote vlModel (image_to_data_url image) prompt = .error e) :
    identify_pet_with_qwen apiKey baseUrl vlModel remote image lang
      = (.ok (some ("Error: " ++ e.str), some "ERROR"),
         [.clientConstructed apiKey baseUrl,
          .requestSent vlModel (image_to_data_url image) prompt]) ∧
    outcomeOf (some ("Error: " ++ e.str), some "ERROR")
      = some (.RemoteFailure ("Error: " ++ e.str)) ∧
    ("Error: " ++ e.str) ≠ "" ∧
    countRequests (identify_pet_with_qwen apiKey baseUrl vlModel remote image lang).2 ≤ 1 ∧
    ∀ err : PyError,
      (identify_pet_with_qwen apiKey baseUrl vlModel remote image lang).1 ≠ .error err := by
  have hmain : identify_pet_with_qwen apiKey baseUrl vlModel remote image lang
      = (.ok (some ("Error: " ++ e.str), some "ERROR"),
         [.clientConstructed apiKey baseUrl,
          .requestSent vlModel (image_to_data_url image) prompt]) := by
    simp [identify_pet_with_qwen, hkey, hlang, hremote]
  refine ⟨hmain, rfl, errorPrefixed_ne_empty e.str, ?_, ?_⟩
  · rw [hmain]; simp [countRequests]
  · intro err; rw [hmain]; simp

theorem C3_witness :
    ("sk-test2" ≠ "" ∧ dictGet promptDict "zh" = some prompt_zh ∧
      (fun _ _ _ => (Except.error (PyExn.transportError "connection reset") : Except PyExn String))
          "qwen-vl-plus" (image_to_data_url ⟨1, 1, [0, 0, 0, 255]⟩) prompt_zh
        = .error (.transportError "connection reset")) ∧
    (identify_pet_with_qwen "sk-test2" "https://example" "qwen-vl-plus"
        (fun _ _ _ => .error (.transportError "connection reset")) ⟨1, 1, [0, 0, 0, 255]⟩ "zh"
      = (.ok (some ("Error: " ++ (PyExn.transportError "connection reset").str), some "ERROR"),
         [.clientConstructed "sk-test2" "https://example",
          .requestSent "qwen-vl-plus" (image_to_data_url ⟨1, 1, [0, 0, 0, 255]⟩) prompt_zh]) ∧
     outcomeOf (some ("Error: " ++ (PyExn.transportError "connection reset").str), some "ERROR")
       = some (.RemoteFailure ("Error: " ++ (PyExn.transportError "connection reset").str)) ∧
     ("Error: " ++ (PyExn.transportError "connection reset").str) ≠ "" ∧
     countRequests (identify_pet_with_qwen "sk-test2" "https://example" "qwen-vl-plus"
        (fun _ _ _ => .error (.transportError "connection reset")) ⟨1, 1, [0, 0, 0, 255]⟩ "zh").2 ≤ 1 ∧
     ∀ err : PyError,
       (identify_pet_with_qwen "sk-test2" "https://example" "qwen-vl-plus"
          (fun _ _ _ => .error (.transportError "connection reset")) ⟨1, 1, [0, 0, 0, 255]⟩ "zh").1
         ≠ .error err) :=
  ⟨⟨by decide, by decide, rfl⟩,
   C3_remote_error_contained "sk-test2" "https://example" "qwen-vl-plus"
     (fun _ _ _ => .error (.transportError "connection reset")) ⟨1, 1, [0, 0, 0, 255]⟩ "zh"
     prompt_zh (.transportError "connection reset") (by decide) (by decide) rfl⟩

theorem promptDict_lookup_of_not_mem {lang : String} (h : lang ∉ supportedLocales) :
    dictGet promptDict lang = none := by
  have h1 : lang ≠ "en" := fun e => h (by simp [supportedLocales, e])
  have h2 : lang ≠ "zh" := fun e => h (by simp [supportedLocales, e])
  have h3 : lang ≠ "ko" := fun e => h (by simp [supportedLocales, e])
  simp [promptDict, dictGet, Ne.symm h1, Ne.symm h2, Ne.symm h3]

/-- C10: with a credential configured, a locale outside the supported set
makes the prompt-dict index raise a KeyError that escapes identify —
after the client is constructed but before any request is dispatched —
and the fault is not converted into an ordinary returned outcome. -/
theorem C10_unsupported_locale_keyerror
    (apiKey baseUrl vlModel : String)
    (remote : String → String → String → Except PyExn String)
    (image : PILImage) (lang : String)
    (hkey : apiKey ≠ "") (hlang : lang ∉ supportedLocales) :
    identify_pet_with_qwen apiKey baseUrl vlModel remote image lang
      = (.error (.keyError lang), [.clientConstructed apiKey baseUrl]) ∧
    countRequests (identify_pet_with_qwen apiKey baseUrl vlModel remote image lang).2 = 0 ∧
    ∀ r, (identify_pet_with_qwen apiKey baseUrl vlModel remote image lang).1 ≠ .ok r := by
  have hnone := promptDict_lookup_of_not_mem hlang
  have hmain : identify_pet_with_qwen apiKey baseUrl vlModel remote image lang
      = (.error (.keyError lang), [.clientConstructed apiKey baseUrl]) := by
    simp [identify_pet_with_qwen, hkey, hnone]
  refine ⟨hmain, ?_, ?_⟩
  · rw [hmain]; simp [countRequests]
  · intro r; rw [hmain]; simp

theorem C10_witness :
    ("sk-test3" ≠ "" ∧ "fr" ∉ supportedLocales) ∧
    (identify_pet_with_qwen "sk-test3" "https://example" "qwen-vl-plus"
        (fun _ _ _ => .ok "text") ⟨1, 1, []⟩ "fr"
      = (.error (.keyError "fr"), [.clientConstructed "sk-test3" "https://example"]) ∧
     countRequests (identify_pet_with_qwen "sk-test3" "https://example" "qwen-vl-plus"
        (fun _ _ _ => .ok "text") ⟨1, 1, []⟩ "fr").2 = 0 ∧
     ∀ r, (identify_pet_with_qwen "sk-test3" "https://example" "qwen-vl-plus"
        (fun _ _ _ => .ok "text") ⟨1, 1, []⟩ "fr").1 ≠ .ok r) :=
  ⟨⟨by decide, by decide⟩,
   C10_unsupported_locale_keyerror "sk-test3" "https://example" "qwen-vl-plus"
     (fun _ _ _ => .ok "text") ⟨1, 1, []⟩ "fr" (by decide) (by decide)⟩

/-- C6 counterexample: nothing in the caller-facing surface configures a
timeout — identify_pet_with_qwen takes only the image and the locale, the
client constructor receives only the key and the base URL, the request
carries only the model and the messages, and no environment variable
read by the module names a timeout — so the remote call is not bounded
by a caller-configurable timeout. -/
theorem C6_counterexample :
    "timeout" ∉ identifyParams ∧ "timeout" ∉ openAIClientArgs ∧
    "timeout" ∉ chatCompletionsCreateArgs ∧
    ∀ v ∈ envVarsRead, v ≠ "DASHSCOPE_TIMEOUT" ∧ v ≠ "TIMEOUT" := by
  decide

/-- C6 amended: the remote call's timeout is the transport library's
default, not configurable by any caller of identify (no timeout appears
among identify's parameters or among the arguments handed to the client
or the request); when the call does time out, the raised timeout error is
treated identically to any other remote failure — the invocation returns
the very same RemoteFailure-shaped value a transport error with the same
text produces. -/
theorem C6_timeout_is_remote_failure
    (apiKey baseUrl vlModel : String) (image : PILImage) (lang prompt msg : String)
    (hkey : apiKey ≠ "")
    (hlang : dictGet promptDict lang = some prompt) :
    identify_pet_with_qwen apiKey baseUrl vlModel
        (fun _ _ _ => .error (.timeoutError msg)) image lang
      = (.ok (some ("Error: " ++ msg), some "ERROR"),
         [.clientConstructed apiKey baseUrl,
          .requestSent vlModel (image_to_data_url image) prompt]) ∧
    identify_pet_with_qwen apiKey baseUrl vlModel
        (fun _ _ _ => .error (.timeoutError msg)) image lang
      = identify_pet_with_qwen apiKey baseUrl vlModel
          (fun _ _ _ => .error (.transportError msg)) image lang ∧
    outcomeOf (some ("Error: " ++ msg), some "ERROR")
      = some (.RemoteFailure ("Error: " ++ msg)) ∧
    "timeout" ∉ identifyParams ∧ "timeout" ∉ openAIClientArgs := by
  refine ⟨?_, ?_, rfl, by decide, by decide⟩ <;>
    simp [identify_pet_with_qwen, hkey, hlang, PyExn.str]

theorem C6_witness :
    ("sk-test4" ≠ "" ∧ dictGet promptDict "ko" = some prompt_ko) ∧
    (identify_pet_with_qwen "sk-test4" "https://example" "qwen-vl-plus"
        (fun _ _ _ => .error (.timeoutError "Request timed out.")) ⟨1, 1, []⟩ "ko"
      = (.ok (some ("Error: " ++ "Request timed out."), some "ERROR"),
         [.clientConstructed "sk-test4" "https://example",
          .requestSent "qwen-vl-plus" (image_to_data_url ⟨1, 1, []⟩) prompt_ko]) ∧
     identify_pet_with_qwen "sk-test4" "https://example" "qwen-vl-plus"
        (fun _ _ _ => .error (.timeoutError "Request timed out.")) ⟨1, 1, []⟩ "ko"
      = identify_pet_with_qwen "sk-test4" "https://example" "qwen-vl-plus"
          (fun _ _ _ => .error (.transportError "Request timed out.")) ⟨1, 1, []⟩ "ko" ∧
     outcomeOf (some ("Error: " ++ "Request timed out."), some "ERROR")
       = some (.RemoteFailure ("Error: " ++ "Request timed out.")) ∧
     "timeout" ∉ identifyParams ∧ "timeout" ∉ openAIClientArgs) :=
  ⟨⟨by decide, by decide⟩,
   C6_timeout_is_remote_failure "sk-test4" "https://example" "qwen-vl-plus"
     ⟨1, 1, []⟩ "ko" prompt_ko "Request timed out." (by decide) (by decide)⟩

/-- C8: for every supported locale the prompt handed to the model is the
fixed instruction text of the source, and that text requests — in this
exact order — species/breed identification, the visual evidence, a life
stage from the closed three-term set (baby/adult/senior and its zh and ko
renderings), 3-5 care recommendations, and an uncertainty/safety caveat,
followed by the instruction to state the primary subject when the photo
is not of a pet. -/
theorem C8_prompt_structure :
    dictGet promptDict "en" = some prompt_en ∧
    dictGet promptDict "zh" = some prompt_zh ∧
    dictGet promptDict "ko" = some prompt_ko ∧
    containsInOrder prompt_en.data (promptSections_en.map String.data) = true ∧
    containsInOrder prompt_zh.data (promptSections_zh.map String.data) = true ∧
    containsInOrder prompt_ko.data (promptSections_ko.map String.data) = true := by
  refine ⟨by decide, by decide, by decide, ?_, ?_, ?_⟩ <;> decide

theorem charSextet_sextetChar : ∀ n, n < 64 → charSextet (sextetChar n) = some n := by decide

theorem sextetChar_ne_pad : ∀ n, n < 64 → sextetChar n ≠ '=' := by decide

theorem b64_roundtrip : ∀ bs : List Nat, (∀ b ∈ bs, b < 256) →
    b64DecodeChars (b64EncodeBytes bs) = some bs
  | [] => fun _ => rfl
  | [b1] => fun h => by
    have hb1 : b1 < 256 := h b1 (by simp)
    have e1 := charSextet_sextetChar (b1 / 4) (by omega)
    have e2 := charSextet_sextetChar (b1 % 4 * 16) (by omega)
    have hz : b1 % 4 * 16 % 16 = 0 := by omega
    simp [b64EncodeBytes, b64DecodeChars, e1, e2, hz]
    omega
  | [b1, b2] => fun h => by
    have hb1 : b1 < 256 := h b1 (by simp)
    have hb2 : b2 < 256 := h b2 (by simp)
    have e1 := charSextet_sextetChar (b1 / 4) (by omega)
    have e2 := charSextet_sextetChar (b1 % 4 * 16 + b2 / 16) (by omega)
    have e3 := charSextet_sextetChar (b2 % 16 * 4) (by omega)
    have n3 := sextetChar_ne_pad (b2 % 16 * 4) (by omega)
    have hz : b2 % 16 * 4 % 4 = 0 := by omega
    simp [b64EncodeBytes, b64DecodeChars, e1, e2, e3, n3, hz]
    omega
  | b1 :: b2 :: b3 :: rest => fun h => by
    have hb1 : b1 < 256 := h b1 (by simp)
    have hb2 : b2 < 256 := h b2 (by simp)
    have hb3 : b3 < 256 := h b3 (by simp)
    have ih := b64_roundtrip rest (fun b hb =>
      h b (List.mem_cons_of_mem _ (List.mem_cons_of_mem _ (List.mem_cons_of_mem _ hb))))
    have e1 := charSextet_sextetChar (b1 / 4) (by omega)
    have e2 := charSextet_sextetChar (b1 % 4 * 16 + b2 / 16) (by omega)
    have e3 := charSextet_sextetChar (b2 % 16 * 4 + b3 / 64) (by omega)
    have e4 := charSextet_sextetChar (b3 % 64) (by omega)
    have n3 := sextetChar_ne_pad (b2 % 16 * 4 + b3 / 64) (by omega)
    have n4 := sextetChar_ne_pad (b3 % 64) (by omega)
    simp [b64EncodeBytes, b64DecodeChars, e1, e2, e3, e4, n3, n4, ih]
    omega

theorem take_of_append {α : Type} (n : Nat) (l r : List α) (h : l.length = n) :
    (l ++ r).take n = l := by
  subst h; exact List.take_left l r

theorem drop_of_append {α : Type} (n : Nat) (l r : List α) (h : l.length = n) :
    (l ++ r).drop n = r := by
  subst h; exact List.drop_left l r

theorem parseBe32_be32 (n : Nat) (h : n < 2 ^ 32) : parseBe32 (be32 n) = n := by
  simp only [be32, parseBe32]
  omega

theorem pngDecode_pngBytes (img : PILImage) (hw : img.width < 2 ^ 32)
    (hh : img.height < 2 ^ 32) (hl : img.pixels.length < 2 ^ 32) :
    pngDecode (pngBytes img) = some img := by
  have lsig : pngSignature.length = 8 := rfl
  have lw : (be32 img.width).length = 4 := rfl
  have lh : (be32 img.height).length = 4 := rfl
  have ll : (be32 img.pixels.length).length = 4 := rfl
  simp only [pngDecode, pngBytes]
  simp only [take_of_append, drop_of_append, lsig, lw, lh, ll,
    List.length_cons, List.length_nil]
  rw [parseBe32_be32 _ hw, parseBe32_be32 _ hh, parseBe32_be32 _ hl]
  rw [take_of_append _ _ _ rfl]
  simp

theorem pngBytes_bytes_lt (img : PILImage) (hp : ∀ b ∈ img.pixels, b < 256) :
    ∀ b ∈ pngBytes img, b < 256 := by
  intro b hb
  simp only [pngBytes, pngSignature, be32, List.mem_append, List.mem_cons,
    List.not_mem_nil, or_false] at hb
  by_cases hm : b ∈ img.pixels
  · exact hp b hm
  · simp only [hm, or_false, false_or] at hb
    omega

theorem dataUrl_roundtrip (img : PILImage) (hw : img.width < 2 ^ 32)
    (hh : img.height < 2 ^ 32) (hl : img.pixels.length < 2 ^ 32)
    (hp : ∀ b ∈ img.pixels, b < 256) :
    dataUrlDecode (image_to_data_url img) = some img := by
  have hdata : (image_to_data_url img).data
      = dataUrlHead.data ++ b64EncodeBytes (pngBytes img) := by
    simp [image_to_data_url, String.data_append]
  have hlen : (dataUrlHead.data).length = 22 := by decide
  simp only [dataUrlDecode, hdata]
  rw [take_of_append _ _ _ hlen, drop_of_append _ _ _ hlen, if_pos rfl]
  rw [b64_roundtrip (pngBytes img) (pngBytes_bytes_lt img hp)]
  simp [pngDecode_pngBytes img hw hh hl]

/-- C5: decoding the payload produced by image_to_data_url — the PNG
re-serialization, base64-encoded and wrapped as a
`data:image/png;base64` data URL — recovers an image whose width and
height are identical to the source image's (indeed the identical image,
the modelled re-encode being lossless), for every valid decoded image. -/
theorem C5_roundtrip_preserves_dimensions (img : PILImage)
    (hw : img.width < 2 ^ 32) (hh : img.height < 2 ^ 32)
    (hl : img.pixels.length < 2 ^ 32) (hp : ∀ b ∈ img.pixels, b < 256) :
    dataUrlDecode (image_to_data_url img) = some img ∧
    (dataUrlDecode (image_to_data_url img)).map PILImage.width = some img.width ∧
    (dataUrlDecode (image_to_data_url img)).map PILImage.height = some img.height := by
  have h := dataUrl_roundtrip img hw hh hl hp
  exact ⟨h, by rw [h]; rfl, by rw [h]; rfl⟩

theorem C5_witness :
    ((1 : Nat) < 2 ^ 32 ∧ (1 : Nat) < 2 ^ 32 ∧
      ([255, 0, 0, 255] : List Nat).length < 2 ^ 32 ∧
      ∀ b ∈ ([255, 0, 0, 255] : List Nat), b < 256) ∧
    (dataUrlDecode (image_to_data_url ⟨1, 1, [255, 0, 0, 255]⟩)
        = some ⟨1, 1, [255, 0, 0, 255]⟩ ∧
     (dataUrlDecode (image_to_data_url ⟨1, 1, [255, 0, 0, 255]⟩)).map PILImage.width
        = some 1 ∧
     (dataUrlDecode (image_to_data_url ⟨1, 1, [255, 0, 0, 255]⟩)).map PILImage.height
        = some 1) :=
  ⟨⟨by decide, by decide, by decide, by decide⟩,
   C5_roundtrip_preserves_dimensions ⟨1, 1, [255, 0, 0, 255]⟩
     (by decide) (by decide) (by decide) (by decide)⟩

end AnimalApp
